import Mathlib

/-!
# Shallow embedding of the risc0-verifier receipt model and verification dispatcher

This file embeds the receipt model, the claim-matching protocol and the
circuit-identity lookup of the `risc0-verifier` crate (files `receipt.rs`,
`circuit.rs`, `circuit/v1_2.rs`) and proves the specified properties about
them.

Cryptographic hashing is modelled as a free term algebra: a `Digest` is a
term built from the constructors below, so two digests are equal exactly
when they were built the same way (the idealised collision-free model of a
cryptographic hash).  The external STARK proof-verification engine is a
black box to this crate; each receipt carries its verdict as a stub
function of the verifier context, mirroring the stub-engine testing story
of the specification.
-/

/-- Outcome classification of a claim.  Only the successful halt is
constructed by this core's happy path (`ReceiptClaim.ok`); other exit
conditions exist so that claims extracted from receipts can differ. -/
inductive ExitStatus where
  | success : ExitStatus
  | other : Nat → ExitStatus
deriving DecidableEq, Repr

/-- A fixed-width cryptographic hash value, modelled as a free term:
`raw` covers opaque digest constants (control ids, verifier-parameter
fingerprints, image ids), `sha_bytes` is the SHA-256 hash of a byte
sequence, and `claim_hash` is the canonical structural hash of a claim
(outcome classification, program identity, output digest). -/
inductive Digest where
  | raw : Nat → Digest
  | sha_bytes : List Nat → Digest
  | claim_hash : ExitStatus → Digest → Digest → Digest
deriving DecidableEq, Repr

/-- Modelled from the spec: the "may be pruned" value of `receipt_claim.rs`
(not under `src/`) — either the full content or just its digest. -/
inductive MaybePruned (α : Type) where
  | Value : α → MaybePruned α
  | Pruned : Digest → MaybePruned α
deriving DecidableEq, Repr

/-- Modelled from the spec: the `Digestible` trait of `sha.rs` (not under
`src/`) — the canonical digest derivation of a value. -/
class Digestible (α : Type) where
  digest : α → Digest

/-- Digest of a possibly pruned value: hash the value when present,
return the stored digest otherwise (single accessor, per the spec's
pruned-value pattern). -/
def MaybePruned.digest {α : Type} [Digestible α] : MaybePruned α → Digest
  | .Value v => Digestible.digest v
  | .Pruned d => d

/-- Byte sequences (public outputs) digest to their SHA-256 hash. -/
instance : Digestible (List Nat) := ⟨Digest.sha_bytes⟩

/-- Modelled from the spec: the claim of `receipt_claim.rs` (not under
`src/`) — program identity, outcome classification, and the possibly
pruned public output. -/
structure ReceiptClaim where
  exit : ExitStatus
  image_id : Digest
  output : MaybePruned (List Nat)
deriving DecidableEq, Repr

/-- Modelled from the spec: `ReceiptClaim::ok` — outcome fixed to success,
program identity stored verbatim, output stored in its provided pruning
state. -/
def ReceiptClaim.ok (image_id : Digest) (output : MaybePruned (List Nat)) : ReceiptClaim :=
  { exit := ExitStatus.success, image_id := image_id, output := output }

/-- Modelled from the spec: the canonical claim digest — a deterministic
structural hash of the outcome classification, the program identity, and
the output's digest (the output is hashed first when given in full form). -/
def ReceiptClaim.digest (c : ReceiptClaim) : Digest :=
  Digest.claim_hash c.exit c.image_id c.output.digest

instance : Digestible ReceiptClaim := ⟨ReceiptClaim.digest⟩

/-- Modelled from the spec: the uninhabited claim type `Unknown` of
`receipt_claim.rs` (not under `src/`) used for type-erased assumption
receipts: such a claim can only ever be present in pruned (digest-only)
form. -/
inductive Unknown where
deriving DecidableEq, Repr

instance : Digestible Unknown := ⟨fun u => nomatch u⟩

/-- The journal of `receipt.rs`: the raw public-output bytes written by the
guest. -/
structure Journal where
  bytes : List Nat
deriving DecidableEq, Repr

/-- `Journal::new`. -/
def Journal.new (bytes : List Nat) : Journal :=
  { bytes := bytes }

/-- `Digestible for Journal` in `receipt.rs`: `*S::hash_bytes(&self.bytes)`. -/
def Journal.digest (j : Journal) : Digest :=
  Digest.sha_bytes j.bytes

instance : Digestible Journal := ⟨Journal.digest⟩

/-- `AsRef<[u8]> for Journal` in `receipt.rs`: a view of the raw bytes. -/
def Journal.as_ref (j : Journal) : List Nat :=
  j.bytes

/-! ## Circuit identity registry (`circuit/v1_2.rs`) -/

/-- The compile-time circuit metadata exposed by a `CircuitInfo`
implementation: the 16-byte protocol tag and the output/mix sizes. -/
structure CircuitInfoData where
  CIRCUIT_INFO : List Nat
  OUTPUT_SIZE : Nat
  MIX_SIZE : Nat
deriving DecidableEq, Repr

/-- ASCII bytes of a string, to relate the protocol-tag byte literals to
the strings they spell. -/
def asciiBytes (s : String) : List Nat :=
  s.data.map Char.toNat

namespace v1_2

/-- `CircuitInfo for CircuitImpl` in `circuit/v1_2.rs`: the byte literal
`*b"RV32IM:rev1v1___"` with `OUTPUT_SIZE = 138` and `MIX_SIZE = 40`. -/
def circuit_info : CircuitInfoData :=
  { CIRCUIT_INFO :=
      [82, 86, 51, 50, 73, 77, 58, 114, 101, 118, 49, 118, 49, 95, 95, 95]
    OUTPUT_SIZE := 138
    MIX_SIZE := 40 }

/-- `CircuitInfo for recursive::CircuitImpl` in `circuit/v1_2.rs`: the byte
literal `*b"RECURSION:rev1v1"` with `OUTPUT_SIZE = 32` and `MIX_SIZE = 20`. -/
def recursive_circuit_info : CircuitInfoData :=
  { CIRCUIT_INFO :=
      [82, 69, 67, 85, 82, 83, 73, 79, 78, 58, 114, 101, 118, 49, 118, 49]
    OUTPUT_SIZE := 32
    MIX_SIZE := 20 }

end v1_2

/-- Modelled from the spec: `risc0_zkp::MIN_CYCLES_PO2`, the lower bound of
the fixed inclusive range of supported size classes.  The external crate
pins it to 13; none of the theorems below depend on the specific value. -/
def MIN_CYCLES_PO2 : Nat := 13

/-- Modelled from the spec: `risc0_zkp::MAX_CYCLES_PO2`, the upper bound of
the fixed inclusive range of supported size classes (24 in the external
crate). -/
def MAX_CYCLES_PO2 : Nat := 24

/-- Modelled from the spec: the precomputed sha-256 control-identifier
table of `circuit/v1_2/control_id.rs` (large generated constant data, not
under `src/`).  Modelled as a dense table of `MAX - MIN + 1` distinct
opaque digests; the lookup theorems depend only on its density. -/
def SHA256_CONTROL_IDS : List Digest :=
  (List.range (MAX_CYCLES_PO2 - MIN_CYCLES_PO2 + 1)).map (fun i => Digest.raw (100 + i))

/-- Modelled from the spec: the precomputed poseidon2 control-identifier
table (generated data, not under `src/`). -/
def POSEIDON2_CONTROL_IDS : List Digest :=
  (List.range (MAX_CYCLES_PO2 - MIN_CYCLES_PO2 + 1)).map (fun i => Digest.raw (200 + i))

/-- Modelled from the spec: the precomputed blake2b control-identifier
table (generated data, not under `src/`). -/
def BLAKE2B_CONTROL_IDS : List Digest :=
  (List.range (MAX_CYCLES_PO2 - MIN_CYCLES_PO2 + 1)).map (fun i => Digest.raw (300 + i))

/-- `control_id` in `circuit/v1_2.rs`: fetch a control id by hash name and
po2 from the precomputed table; `none` when the po2 is out of range or the
hash function is not precomputed.  The guard makes the index in range, so
the optional table access matches Rust's in-bounds array indexing. -/
def control_id (hash_name : String) (po2 : Nat) : Option Digest :=
  if ¬(MIN_CYCLES_PO2 ≤ po2 ∧ po2 ≤ MAX_CYCLES_PO2) then
    none
  else
    let idx := po2 - MIN_CYCLES_PO2
    match hash_name with
    | "sha-256" => SHA256_CONTROL_IDS[idx]?
    | "poseidon2" => POSEIDON2_CONTROL_IDS[idx]?
    | "blake2b" => BLAKE2B_CONTROL_IDS[idx]?
    | _ => none

/-! ## Verifier context and error taxonomy -/

/-- Modelled from the spec: the error taxonomy the core surfaces
(`risc0_zkp::verify::VerificationError` as consumed by `receipt.rs`):
structural format errors, opaque engine rejections, claim-digest
mismatches carrying both digests, and unsupported-parameter rejections. -/
inductive VerificationError where
  | ReceiptFormatError : VerificationError
  | ClaimDigestMismatch : Digest → Digest → VerificationError
  | EngineRejection : Nat → VerificationError
  | UnsupportedParameters : VerificationError
deriving DecidableEq, Repr

/-- Modelled from the spec: `VerifierContext` (crate root, not under
`src/`) — immutable configuration bundling the circuit definition for the
base execution proof and the one for recursive/succinct proofs. -/
structure VerifierContext where
  segment_circuit : CircuitInfoData
  recursive_circuit : CircuitInfoData
deriving DecidableEq, Repr

/-- Modelled from the spec: `VerifierContext::v1_2()`, the pinned
known-good default context, bundling the two v1_2 circuit definitions. -/
def VerifierContext.v1_2 : VerifierContext :=
  { segment_circuit := v1_2.circuit_info
    recursive_circuit := v1_2.recursive_circuit_info }

/-! ## Receipt shapes -/

/-- Modelled from the spec: `CompositeReceipt` (`receipt/composite.rs`,
not under `src/`) — an ordered chain of per-segment claims plus the
verifier-parameter fingerprint.  The delegated cryptographic check of the
proof-verification engine is out of scope; it is modelled by the stub
verdict `integrity`, a function of the verifier context. -/
structure CompositeReceipt where
  segments : List ReceiptClaim
  verifier_parameters : Digest
  integrity : VerifierContext → Except VerificationError Unit

/-- Modelled from the spec: `CompositeReceipt::claim` — derived from the
segment chain (the final segment carries the composed claim); fails with a
format error when the chain is empty. -/
def CompositeReceipt.claim (r : CompositeReceipt) : Except VerificationError ReceiptClaim :=
  match r.segments.getLast? with
  | none => Except.error VerificationError.ReceiptFormatError
  | some c => Except.ok c

/-- Modelled from the spec: `SuccinctReceipt` (`receipt/succinct.rs`, not
under `src/`) — a single proof attesting a claim of type `α`, kept
alongside the seal, plus the verifier-parameter fingerprint.  As for
composite receipts, the engine verdict is the stub `integrity`. -/
structure SuccinctReceipt (α : Type) where
  claim : MaybePruned α
  verifier_parameters : Digest
  integrity : VerifierContext → Except VerificationError Unit

/-- Modelled from the spec: `SuccinctReceipt::into_unknown` — the
type-erasing conversion: the claim becomes digest-only (pruned), every
other component is carried over unchanged. -/
def SuccinctReceipt.into_unknown {α : Type} [Digestible α]
    (s : SuccinctReceipt α) : SuccinctReceipt Unknown :=
  { claim := MaybePruned.Pruned s.claim.digest
    verifier_parameters := s.verifier_parameters
    integrity := s.integrity }

/-- `InnerReceipt` in `receipt.rs`: the tagged union of receipt shapes. -/
inductive InnerReceipt where
  | Composite : CompositeReceipt → InnerReceipt
  | Succinct : SuccinctReceipt ReceiptClaim → InnerReceipt

/-- `InnerReceipt::verify_integrity_with_context`: delegate the engine
check to the matching shape. -/
def InnerReceipt.verify_integrity_with_context
    (r : InnerReceipt) (ctx : VerifierContext) : Except VerificationError Unit :=
  match r with
  | .Composite inner => inner.integrity ctx
  | .Succinct inner => inner.integrity ctx

/-- `InnerReceipt::composite`: the `Composite` arm, or a format error. -/
def InnerReceipt.composite (r : InnerReceipt) : Except VerificationError CompositeReceipt :=
  match r with
  | .Composite x => Except.ok x
  | _ => Except.error VerificationError.ReceiptFormatError

/-- `InnerReceipt::succinct`: the `Succinct` arm, or a format error. -/
def InnerReceipt.succinct (r : InnerReceipt) :
    Except VerificationError (SuccinctReceipt ReceiptClaim) :=
  match r with
  | .Succinct x => Except.ok x
  | _ => Except.error VerificationError.ReceiptFormatError

/-- `InnerReceipt::claim`: for `Composite`, the (fallible) composed claim,
wrapped as a full value; for `Succinct`, the stored claim, returned as is. -/
def InnerReceipt.claim (r : InnerReceipt) :
    Except VerificationError (MaybePruned ReceiptClaim) :=
  match r with
  | .Composite inner =>
    match inner.claim with
    | Except.error e => Except.error e
    | Except.ok c => Except.ok (MaybePruned.Value c)
  | .Succinct inner => Except.ok inner.claim

/-- `InnerReceipt::verifier_parameters`: the stored fingerprint of either
arm. -/
def InnerReceipt.verifier_parameters (r : InnerReceipt) : Digest :=
  match r with
  | .Composite inner => inner.verifier_parameters
  | .Succinct inner => inner.verifier_parameters

/-- `InnerAssumptionReceipt` in `receipt.rs`: like `InnerReceipt`, but the
succinct arm's claim type is erased. -/
inductive InnerAssumptionReceipt where
  | Composite : CompositeReceipt → InnerAssumptionReceipt
  | Succinct : SuccinctReceipt Unknown → InnerAssumptionReceipt

/-- `InnerAssumptionReceipt::verify_integrity_with_context`. -/
def InnerAssumptionReceipt.verify_integrity_with_context
    (r : InnerAssumptionReceipt) (ctx : VerifierContext) : Except VerificationError Unit :=
  match r with
  | .Composite inner => inner.integrity ctx
  | .Succinct inner => inner.integrity ctx

/-- `InnerAssumptionReceipt::composite`. -/
def InnerAssumptionReceipt.composite (r : InnerAssumptionReceipt) :
    Except VerificationError CompositeReceipt :=
  match r with
  | .Composite x => Except.ok x
  | _ => Except.error VerificationError.ReceiptFormatError

/-- `InnerAssumptionReceipt::succinct`. -/
def InnerAssumptionReceipt.succinct (r : InnerAssumptionReceipt) :
    Except VerificationError (SuccinctReceipt Unknown) :=
  match r with
  | .Succinct x => Except.ok x
  | _ => Except.error VerificationError.ReceiptFormatError

/-- `InnerAssumptionReceipt::claim_digest`: only the digest is available
because the claim type may be erased. -/
def InnerAssumptionReceipt.claim_digest (r : InnerAssumptionReceipt) :
    Except VerificationError Digest :=
  match r with
  | .Composite inner =>
    match inner.claim with
    | Except.error e => Except.error e
    | Except.ok c => Except.ok c.digest
  | .Succinct inner => Except.ok inner.claim.digest

/-- `InnerAssumptionReceipt::verifier_parameters`. -/
def InnerAssumptionReceipt.verifier_parameters (r : InnerAssumptionReceipt) : Digest :=
  match r with
  | .Composite inner => inner.verifier_parameters
  | .Succinct inner => inner.verifier_parameters

/-- `From<InnerReceipt> for InnerAssumptionReceipt` in `receipt.rs`:
`Composite` is carried over unchanged, `Succinct` goes through the
type-erasing `into_unknown`. -/
def InnerReceipt.toAssumption (r : InnerReceipt) : InnerAssumptionReceipt :=
  match r with
  | .Composite x => InnerAssumptionReceipt.Composite x
  | .Succinct x => InnerAssumptionReceipt.Succinct x.into_unknown

/-! ## Verification dispatcher (`Proof`) -/

/-- `Proof` in `receipt.rs`: a wrapper around the polymorphic
`InnerReceipt`. -/
structure Proof where
  inner : InnerReceipt

/-- `Proof::new`. -/
def Proof.new (inner : InnerReceipt) : Proof :=
  { inner := inner }

/-- `Proof::claim`: extract the claim from the inner receipt. -/
def Proof.claim (p : Proof) : Except VerificationError (MaybePruned ReceiptClaim) :=
  p.inner.claim

/-- `Proof::verify_with_context` in `receipt.rs`: run the integrity check
(any failure is returned as is), build the expected claim
`ReceiptClaim::ok(image_id, Pruned(pubs))`, and compare claim digests; on
mismatch fail with `ClaimDigestMismatch` carrying the expected digest and
the digest of the claim re-extracted through `Proof::claim`. -/
def Proof.verify_with_context (p : Proof) (ctx : VerifierContext)
    (image_id : Digest) (pubs : Digest) : Except VerificationError Unit :=
  match p.inner.verify_integrity_with_context ctx with
  | Except.error e => Except.error e
  | Except.ok _ =>
    let expected_claim := ReceiptClaim.ok image_id (MaybePruned.Pruned pubs)
    match p.inner.claim with
    | Except.error e => Except.error e
    | Except.ok actual =>
      if expected_claim.digest ≠ actual.digest then
        match p.claim with
        | Except.error e => Except.error e
        | Except.ok received =>
          Except.error (VerificationError.ClaimDigestMismatch
            expected_claim.digest received.digest)
      else
        Except.ok ()

/-- `Proof::verify` in `receipt.rs`: the convenience entry point, fixing
the context to the pinned `VerifierContext::v1_2()`. -/
def Proof.verify (p : Proof) (image_id : Digest) (pubs : Digest) :
    Except VerificationError Unit :=
  p.verify_with_context VerifierContext.v1_2 image_id pubs

/-! ## Sample receipts used by the witnesses -/

/-- A concrete successful claim used by the witnesses below. -/
def sampleClaim : ReceiptClaim :=
  ReceiptClaim.ok (Digest.raw 1) (MaybePruned.Pruned (Digest.raw 2))

/-- A concrete succinct receipt whose stub engine accepts. -/
def sampleSuccinct : SuccinctReceipt ReceiptClaim :=
  { claim := MaybePruned.Value sampleClaim
    verifier_parameters := Digest.raw 7
    integrity := fun _ => Except.ok () }

/-- A concrete proof wrapping `sampleSuccinct`. -/
def sampleProof : Proof :=
  Proof.new (InnerReceipt.Succinct sampleSuccinct)

/-- A concrete succinct receipt whose stub engine rejects. -/
def rejectingSuccinct : SuccinctReceipt ReceiptClaim :=
  { claim := MaybePruned.Value sampleClaim
    verifier_parameters := Digest.raw 7
    integrity := fun _ => Except.error (VerificationError.EngineRejection 5) }

/-- A concrete proof wrapping `rejectingSuccinct`. -/
def rejectingProof : Proof :=
  Proof.new (InnerReceipt.Succinct rejectingSuccinct)

/-! ## Claims -/

/-- C4: the claim digest of `ReceiptClaim.ok` is a pure function of the
program identity and the digest of the output: supplying the full output
bytes and supplying their pre-computed digest yield identical claim
digests. -/
theorem claim_digest_output_pruning_stable :
    (∀ (id : Digest) (b : List Nat),
      (ReceiptClaim.ok id (MaybePruned.Value b)).digest =
        (ReceiptClaim.ok id (MaybePruned.Pruned (Digestible.digest b))).digest) ∧
    (∀ (id : Digest) (o1 o2 : MaybePruned (List Nat)), o1.digest = o2.digest →
      (ReceiptClaim.ok id o1).digest = (ReceiptClaim.ok id o2).digest) := by
  refine ⟨fun id b => rfl, fun id o1 o2 h => ?_⟩
  simp [ReceiptClaim.digest, ReceiptClaim.ok, h]

/-- Witness for C4 at a concrete identity and output. -/
theorem claim_digest_output_pruning_stable_witness :
    (ReceiptClaim.ok (Digest.raw 0) (MaybePruned.Value [5])).digest =
      (ReceiptClaim.ok (Digest.raw 0) (MaybePruned.Pruned (Digest.sha_bytes [5]))).digest :=
  claim_digest_output_pruning_stable.2 (Digest.raw 0) (MaybePruned.Value [5])
    (MaybePruned.Pruned (Digest.sha_bytes [5])) rfl

/-- C5: the convenience entry point `Proof.verify` returns exactly the
result of `Proof.verify_with_context` at the pinned default context
`VerifierContext.v1_2`. -/
theorem verify_uses_pinned_v1_2_context (p : Proof) (image_id pubs : Digest) :
    p.verify image_id pubs =
      p.verify_with_context VerifierContext.v1_2 image_id pubs := rfl

/-- C6: converting an `InnerReceipt` to an `InnerAssumptionReceipt` keeps
a `Composite` receipt identical (lossless), and sends a `Succinct` receipt
to the type-erased `Succinct` assumption receipt, whose claim digest is
the digest of the original stored claim and whose verifier parameters are
unchanged. -/
theorem inner_to_assumption_spec :
    (∀ c : CompositeReceipt,
      (InnerReceipt.Composite c).toAssumption = InnerAssumptionReceipt.Composite c) ∧
    (∀ s : SuccinctReceipt ReceiptClaim,
      (InnerReceipt.Succinct s).toAssumption =
        InnerAssumptionReceipt.Succinct s.into_unknown ∧
      (InnerReceipt.Succinct s).toAssumption.claim_digest =
        Except.ok s.claim.digest ∧
      (InnerReceipt.Succinct s).toAssumption.verifier_parameters =
        (InnerReceipt.Succinct s).verifier_parameters) :=
  ⟨fun _ => rfl, fun _ => ⟨rfl, rfl, rfl⟩⟩

/-- C7: on the `Succinct` variant, `InnerReceipt.claim` infallibly returns
the stored claim field exactly as stored. -/
theorem succinct_claim_is_stored (s : SuccinctReceipt ReceiptClaim) :
    (InnerReceipt.Succinct s).claim = Except.ok s.claim := rfl

/-- C8: the variant accessors `composite` and `succinct` of both receipt
unions return the contained value exactly on the matching variant and fail
with `ReceiptFormatError` on the other variant. -/
theorem variant_accessors_spec :
    (∀ c, (InnerReceipt.Composite c).composite = Except.ok c) ∧
    (∀ s, (InnerReceipt.Succinct s).composite =
      Except.error VerificationError.ReceiptFormatError) ∧
    (∀ s, (InnerReceipt.Succinct s).succinct = Except.ok s) ∧
    (∀ c, (InnerReceipt.Composite c).succinct =
      Except.error VerificationError.ReceiptFormatError) ∧
    (∀ c, (InnerAssumptionReceipt.Composite c).composite = Except.ok c) ∧
    (∀ s, (InnerAssumptionReceipt.Succinct s).composite =
      Except.error VerificationError.ReceiptFormatError) ∧
    (∀ s, (InnerAssumptionReceipt.Succinct s).succinct = Except.ok s) ∧
    (∀ c, (InnerAssumptionReceipt.Composite c).succinct =
      Except.error VerificationError.ReceiptFormatError) :=
  ⟨fun _ => rfl, fun _ => rfl, fun _ => rfl, fun _ => rfl,
   fun _ => rfl, fun _ => rfl, fun _ => rfl, fun _ => rfl⟩

/-- C9: both v1_2 circuits expose fixed 16-byte protocol tags, spelling
"RV32IM:rev1v1___" (output size 138, mix size 40) for the base-execution
circuit and "RECURSION:rev1v1" (output size 32, mix size 20) for the
recursive circuit, and the two tags are distinct. -/
theorem circuit_protocol_tags_distinct :
    v1_2.circuit_info.CIRCUIT_INFO.length = 16 ∧
    v1_2.recursive_circuit_info.CIRCUIT_INFO.length = 16 ∧
    v1_2.circuit_info.CIRCUIT_INFO = asciiBytes "RV32IM:rev1v1___" ∧
    v1_2.recursive_circuit_info.CIRCUIT_INFO = asciiBytes "RECURSION:rev1v1" ∧
    v1_2.circuit_info.OUTPUT_SIZE = 138 ∧
    v1_2.circuit_info.MIX_SIZE = 40 ∧
    v1_2.recursive_circuit_info.OUTPUT_SIZE = 32 ∧
    v1_2.recursive_circuit_info.MIX_SIZE = 20 ∧
    v1_2.circuit_info.CIRCUIT_INFO ≠ v1_2.recursive_circuit_info.CIRCUIT_INFO := by
  decide

/-- C10: the digest of `Journal.new b` is the SHA-256 hash of exactly the
bytes `b`, `as_ref` returns exactly `b`, and journals with equal bytes
have equal digests. -/
theorem journal_digest_of_bytes :
    (∀ b, (Journal.new b).digest = Digest.sha_bytes b) ∧
    (∀ b, (Journal.new b).as_ref = b) ∧
    (∀ j1 j2 : Journal, j1.bytes = j2.bytes → j1.digest = j2.digest) := by
  refine ⟨fun b => rfl, fun b => rfl, fun j1 j2 h => ?_⟩
  simp [Journal.digest, h]

/-- Witness for C10 at two concrete journals with equal bytes. -/
theorem journal_digest_of_bytes_witness :
    (Journal.new ([1] ++ [2, 3])).digest = (Journal.new [1, 2, 3]).digest :=
  journal_digest_of_bytes.2.2 (Journal.new ([1] ++ [2, 3])) (Journal.new [1, 2, 3]) rfl

/-- C1: `Proof.verify_with_context` accepts exactly when the integrity
check accepts and the digest of the expected claim
`ReceiptClaim.ok image_id (Pruned pubs)` equals the digest of the claim
extracted from the receipt; any integrity failure is returned unchanged,
short-circuiting the claim comparison. -/
theorem verify_with_context_ok_iff (p : Proof) (ctx : VerifierContext)
    (image_id pubs : Digest) :
    (p.verify_with_context ctx image_id pubs = Except.ok () ↔
      p.inner.verify_integrity_with_context ctx = Except.ok () ∧
      ∃ c, p.inner.claim = Except.ok c ∧
        (ReceiptClaim.ok image_id (MaybePruned.Pruned pubs)).digest = c.digest) ∧
    (∀ e, p.inner.verify_integrity_with_context ctx = Except.error e →
      p.verify_with_context ctx image_id pubs = Except.error e) := by
  constructor
  · unfold Proof.verify_with_context
    cases hI : p.inner.verify_integrity_with_context ctx with
    | error e => simp
    | ok u =>
      cases hC : p.inner.claim with
      | error e => simp
      | ok actual =>
        by_cases hd :
            (ReceiptClaim.ok image_id (MaybePruned.Pruned pubs)).digest = actual.digest
        · simp [hd]
        · simp [Proof.claim, hC, hd]
  · intro e he
    unfold Proof.verify_with_context
    rw [he]

/-- Witness for C1: a succinct receipt whose stub engine accepts verifies
against its own claim, and one whose stub engine rejects surfaces the
rejection unchanged. -/
theorem verify_with_context_ok_iff_witness :
    sampleProof.verify_with_context VerifierContext.v1_2
      (Digest.raw 1) (Digest.raw 2) = Except.ok () ∧
    rejectingProof.verify_with_context VerifierContext.v1_2
      (Digest.raw 1) (Digest.raw 2) =
      Except.error (VerificationError.EngineRejection 5) :=
  ⟨(verify_with_context_ok_iff sampleProof VerifierContext.v1_2
        (Digest.raw 1) (Digest.raw 2)).1.mpr
      ⟨rfl, MaybePruned.Value sampleClaim, rfl, rfl⟩,
    (verify_with_context_ok_iff rejectingProof VerifierContext.v1_2
        (Digest.raw 1) (Digest.raw 2)).2
      (VerificationError.EngineRejection 5) rfl⟩

/-- C2: when the integrity check accepts but the expected claim digest
differs from the extracted claim's digest, `Proof.verify_with_context`
fails with `ClaimDigestMismatch` carrying the expected digest and the
extracted claim's digest. -/
theorem verify_with_context_mismatch_error (p : Proof) (ctx : VerifierContext)
    (image_id pubs : Digest) (c : MaybePruned ReceiptClaim)
    (hI : p.inner.verify_integrity_with_context ctx = Except.ok ())
    (hC : p.inner.claim = Except.ok c)
    (hd : (ReceiptClaim.ok image_id (MaybePruned.Pruned pubs)).digest ≠ c.digest) :
    p.verify_with_context ctx image_id pubs =
      Except.error (VerificationError.ClaimDigestMismatch
        (ReceiptClaim.ok image_id (MaybePruned.Pruned pubs)).digest c.digest) := by
  unfold Proof.verify_with_context
  rw [hI, hC]
  simp [Proof.claim, hC, hd]

/-- Witness for C2: the sample receipt attests output digest `raw 2`, so
verifying it against `raw 3` fails with the two claim digests. -/
theorem verify_with_context_mismatch_error_witness :
    sampleProof.verify_with_context VerifierContext.v1_2
      (Digest.raw 1) (Digest.raw 3) =
      Except.error (VerificationError.ClaimDigestMismatch
        (ReceiptClaim.ok (Digest.raw 1) (MaybePruned.Pruned (Digest.raw 3))).digest
        (MaybePruned.Value sampleClaim).digest) :=
  verify_with_context_mismatch_error sampleProof VerifierContext.v1_2
    (Digest.raw 1) (Digest.raw 3) (MaybePruned.Value sampleClaim)
    rfl rfl (by decide)

/-- C3: `control_id` returns `none` exactly when the po2 is outside the
inclusive range `[MIN_CYCLES_PO2, MAX_CYCLES_PO2]` or the hash name is not
one of "sha-256", "poseidon2", "blake2b"; otherwise it returns the entry
at index `po2 - MIN_CYCLES_PO2` of the dense table for that hash, and in
particular lookup at `MIN_CYCLES_PO2` returns the first table entry. -/
theorem control_id_table_lookup (hash_name : String) (po2 : Nat) :
    (control_id hash_name po2 = none ↔
      ¬(MIN_CYCLES_PO2 ≤ po2 ∧ po2 ≤ MAX_CYCLES_PO2) ∨
        (hash_name ≠ "sha-256" ∧ hash_name ≠ "poseidon2" ∧ hash_name ≠ "blake2b")) ∧
    (MIN_CYCLES_PO2 ≤ po2 → po2 ≤ MAX_CYCLES_PO2 →
      control_id "sha-256" po2 = SHA256_CONTROL_IDS[po2 - MIN_CYCLES_PO2]? ∧
      control_id "poseidon2" po2 = POSEIDON2_CONTROL_IDS[po2 - MIN_CYCLES_PO2]? ∧
      control_id "blake2b" po2 = BLAKE2B_CONTROL_IDS[po2 - MIN_CYCLES_PO2]? ∧
      (SHA256_CONTROL_IDS[po2 - MIN_CYCLES_PO2]?).isSome ∧
      (POSEIDON2_CONTROL_IDS[po2 - MIN_CYCLES_PO2]?).isSome ∧
      (BLAKE2B_CONTROL_IDS[po2 - MIN_CYCLES_PO2]?).isSome) ∧
    control_id "sha-256" MIN_CYCLES_PO2 = SHA256_CONTROL_IDS[0]? := by
  have hlen1 : SHA256_CONTROL_IDS.length = 12 := by decide
  have hlen2 : POSEIDON2_CONTROL_IDS.length = 12 := by decide
  have hlen3 : BLAKE2B_CONTROL_IDS.length = 12 := by decide
  refine ⟨?_, ?_, by decide⟩
  · by_cases hr : MIN_CYCLES_PO2 ≤ po2 ∧ po2 ≤ MAX_CYCLES_PO2
    · have hlt : po2 - MIN_CYCLES_PO2 < 12 := by
        obtain ⟨h1, h2⟩ := hr
        simp only [MIN_CYCLES_PO2] at h1 ⊢
        simp only [MAX_CYCLES_PO2] at h2
        omega
      have hb1 : po2 - MIN_CYCLES_PO2 < SHA256_CONTROL_IDS.length := by
        rw [hlen1]; exact hlt
      have hb2 : po2 - MIN_CYCLES_PO2 < POSEIDON2_CONTROL_IDS.length := by
        rw [hlen2]; exact hlt
      have hb3 : po2 - MIN_CYCLES_PO2 < BLAKE2B_CONTROL_IDS.length := by
        rw [hlen3]; exact hlt
      unfold control_id
      rw [if_neg (not_not_intro hr)]
      simp only [hr, not_true_eq_false, false_or]
      split
      · simp [List.getElem?_eq_getElem hb1]
      · simp [List.getElem?_eq_getElem hb2]
      · simp [List.getElem?_eq_getElem hb3]
      · next h1 h2 h3 =>
        exact iff_of_true rfl (Or.inr ⟨h1, h2, h3⟩)
    · unfold control_id
      rw [if_pos hr]
      simp [hr]
  · intro h1 h2
    have hlt : po2 - MIN_CYCLES_PO2 < 12 := by
      simp only [MIN_CYCLES_PO2] at h1 ⊢
      simp only [MAX_CYCLES_PO2] at h2
      omega
    have hb1 : po2 - MIN_CYCLES_PO2 < SHA256_CONTROL_IDS.length := by
      rw [hlen1]; exact hlt
    have hb2 : po2 - MIN_CYCLES_PO2 < POSEIDON2_CONTROL_IDS.length := by
      rw [hlen2]; exact hlt
    have hb3 : po2 - MIN_CYCLES_PO2 < BLAKE2B_CONTROL_IDS.length := by
      rw [hlen3]; exact hlt
    refine ⟨?_, ?_, ?_, ?_, ?_, ?_⟩
    · simp [control_id, h1, h2]
    · simp [control_id, h1, h2]
    · simp [control_id, h1, h2]
    · simp [List.getElem?_eq_getElem hb1]
    · simp [List.getElem?_eq_getElem hb2]
    · simp [List.getElem?_eq_getElem hb3]

/-- Witness for C3: at po2 = 14 the sha-256 lookup returns the table entry
at index 1, and an unknown hash name is rejected in range. -/
theorem control_id_table_lookup_witness :
    control_id "sha-256" 14 = SHA256_CONTROL_IDS[14 - MIN_CYCLES_PO2]? ∧
    control_id "keccak" 14 = none ∧
    control_id "sha-256" 12 = none :=
  ⟨((control_id_table_lookup "sha-256" 14).2.1 (by decide) (by decide)).1,
    (control_id_table_lookup "keccak" 14).1.mpr (Or.inr (by decide)),
    (control_id_table_lookup "sha-256" 12).1.mpr (Or.inl (by decide))⟩
